import Mathlib

/-!
Verification of the `erpnext_taxjar` integration (`erpnext_taxjar/api.py`).

The development shallowly embeds the Python module: pure string handling is
mapped to Lean `String` functions, the external subdivision reference dataset
(`pycountry.subdivisions`) is an explicit list of records queried exactly the
way the code queries it, every `frappe`/database lookup is a function supplied
through an environment record, and Python control flow (early `return None`,
`frappe.throw`, uncaught exceptions) is an explicit result type.
-/

namespace ErpnextTaxjar

/-- Python `str.upper()` restricted to the alphabet used by the embedded data:
ASCII characters behave as in Python; the accented letter `é` (which occurs in
subdivision names) is uppercased to `É`; other characters are unchanged. -/
def pyUpperChar (c : Char) : Char :=
  if c = 'é' then 'É' else c.toUpper

/-- Python `str.lower()` on the same alphabet: ASCII plus `É` → `é`. -/
def pyLowerChar (c : Char) : Char :=
  if c = 'É' then 'é' else c.toLower

/-- Python `s.upper()` (character-wise, over the string's character list). -/
def pyUpper (s : String) : String := ⟨s.data.map pyUpperChar⟩

/-- Python `s.lower()`. -/
def pyLower (s : String) : String := ⟨s.data.map pyLowerChar⟩

/-- Python `s.strip()`: drop whitespace from both ends. -/
def pyStrip (s : String) : String :=
  ⟨((s.data.dropWhile Char.isWhitespace).reverse.dropWhile Char.isWhitespace).reverse⟩

/-- `api.py:242`: `state = address.get("state").upper().strip()`. -/
def processState (raw : String) : String := pyStrip (pyUpper raw)

/-- One entry of the external subdivision reference dataset
(`pycountry.subdivisions`, the spec's §3 "Subdivision reference entry"):
an ISO 3166-1 country code, the full ISO 3166-2 code (e.g. `"US-FL"`) and the
display name. Entries are listed in the dataset's order (sorted by full code). -/
structure Subdivision where
  country_code : String
  code : String
  name : String
deriving DecidableEq

/-- `pycountry.subdivisions.get(country_code=cc)`: the subdivisions whose
country code equals `cc` exactly (the empty list when there are none). -/
def subdivisions_get (db : List Subdivision) (cc : String) : List Subdivision :=
  db.filter (fun p => p.country_code == cc)

/-- `pycountry.subdivisions.lookup(value)`: case-insensitive exact match,
checking the indexed full codes first and then scanning names in dataset
order, returning the first hit; `none` models `LookupError`. -/
def subdivisions_lookup (db : List Subdivision) (value : String) :
    Option Subdivision :=
  match db.find? (fun e => pyLower e.code == pyLower value) with
  | some e => some e
  | none => db.find? (fun e => pyLower e.name == pyLower value)

/-- Python-exception-aware result of running a piece of the integration:
`ok` is a normal return value, `thrown` is `frappe.throw(msg)`, and `crash`
is any other uncaught exception (e.g. `.upper()` on `None`). -/
inductive PyResult (α : Type) where
  | ok (a : α)
  | thrown (msg : String)
  | crash
deriving DecidableEq

/-- Sequencing that propagates `frappe.throw` and crashes. -/
def PyResult.bind {α β : Type} : PyResult α → (α → PyResult β) → PyResult β
  | .ok a, f => f a
  | .thrown m, _ => .thrown m
  | .crash, _ => .crash

/-- `api.py:241`: the `InvalidStateError` message, formatted with the raw
(unprocessed) state string. -/
def invalidStateMessage (rawState : String) : String :=
  rawState ++ " is not a valid state! Check for typos or enter the ISO code for your state."

/-- `api.py:123-124`: the military-address rejection message (verbatim,
including the newline and indentation inside the triple-quoted string). -/
def militaryMessage : String :=
  "For shipping to overseas US bases, please\n\t\t\t\t\t\t\tcontact us with your order details."

/-- Python `str.split('-')` over a character list (accumulator holds the
current field reversed). -/
def splitOnDashAux : List Char → List Char → List (List Char)
  | [], acc => [acc.reverse]
  | c :: cs, acc =>
    if c = '-' then acc.reverse :: splitOnDashAux cs [] else splitOnDashAux cs (c :: acc)

/-- Python `code.split('-')[1]`; `none` models the `IndexError` raised when
the code contains no `-`. -/
def splitSecond (code : String) : Option String :=
  ((splitOnDashAux code.data []).get? 1).map (fun l => ⟨l⟩)

/-- `api.py:238-261`, `validate_state`, given the country code already fetched
from the `Country` table (`none` when that lookup returned `None`) and the raw
state string.  Line by line:
* `state = address.get("state").upper().strip()` is `processState rawState`;
* if `len(state) <= 3`, build `(country_code + "-" + state).upper()`, fetch
  the country's subdivisions and test membership of the full code, returning
  `state` on a hit and throwing the error message otherwise (`crash` when
  `country_code` is `None`, since Python would raise a `TypeError` on the
  concatenation / `AttributeError` on `.upper()`);
* otherwise `pycountry.subdivisions.lookup(state)` and on success return
  `lookup_state.code.split('-')[1]`, throwing the error message on
  `LookupError`. -/
def validate_state (db : List Subdivision) (country_code : Option String)
    (rawState : String) : PyResult String :=
  if (processState rawState).length ≤ 3 then
    match country_code with
    | none => PyResult.crash
    | some cc =>
      if ((subdivisions_get db (pyUpper cc)).map (fun p => p.code)).contains
          (pyUpper (cc ++ "-" ++ processState rawState)) then
        PyResult.ok (processState rawState)
      else
        PyResult.thrown (invalidStateMessage rawState)
  else
    match subdivisions_lookup db (processState rawState) with
    | none => PyResult.thrown (invalidStateMessage rawState)
    | some e =>
      match splitSecond e.code with
      | some sc => PyResult.ok sc
      | none => PyResult.crash

/-- A sample of the real reference dataset (ISO 3166-2 entries, in the
dataset's code-sorted order), used for concrete evaluations. -/
def sampleDb : List Subdivision :=
  [⟨"CA", "CA-ON", "Ontario"⟩,
   ⟨"CA", "CA-QC", "Québec"⟩,
   ⟨"JP", "JP-24", "Mie"⟩,
   ⟨"US", "US-FL", "Florida"⟩,
   ⟨"US", "US-TX", "Texas"⟩]

/-- An ERPNext `Address` document as read by `api.py`: `none` models a field
that is `None`, `some ""` an empty string (the two behave differently under
`is not None` versus truthiness checks). -/
structure Address where
  country : Option String
  state : Option String
  pincode : Option String
  city : Option String
deriving DecidableEq

/-- A row of `doc.taxes` (`Sales Taxes and Charges`), with the fields the
module reads or writes. -/
structure TaxRow where
  charge_type : String
  description : String
  account_head : String
  cost_center : Option String
  tax_amount : Int
deriving DecidableEq

/-- A row of `doc.items`. -/
structure Item where
  item_code : String
  qty : Int
  rate : Int
deriving DecidableEq

/-- One entry of the `line_items` list built by `get_item_tax_code`. -/
structure LineItem where
  quantity : Int
  unit_price : Int
  product_tax_code : Option String
deriving DecidableEq

/-- The `tax_dict` assembled by `get_tax_data` (`api.py:129-140`). -/
structure TaxDict where
  to_country : String
  to_zip : Option String
  to_city : Option String
  to_state : Option String
  from_country : String
  from_zip : Option String
  from_city : Option String
  from_state : Option String
  shipping : Int
  amount : Int
  line_items : Option (List LineItem)
deriving DecidableEq

/-- The response object of `client.tax_for_order`, reduced to the one field
the module reads. -/
structure TaxData where
  amount_to_collect : Int
deriving DecidableEq

/-- The sales document fields the module reads (`Sales Order` / `Sales
Invoice`). -/
structure Doc where
  company : Option String
  customer : String
  customer_address : Option String
  shipping_address_name : Option String
  items : List Item
  taxes : List TaxRow
  net_total : Int
  exempt_from_sales_tax : Option Int
deriving DecidableEq

/-- Everything external to the module: the subdivision reference dataset, the
`frappe` database lookups, settings, and the TaxJar client.  `api.py` reads
all of these through global/frappe calls; here they are explicit inputs. -/
structure Env where
  /-- `pycountry.subdivisions` reference data. -/
  db : List Subdivision
  /-- `frappe.db.get_value("Country", name, "code")`. -/
  countryCode : String → Option String
  /-- `frappe.get_doc("Address", name)`. -/
  getAddress : String → Address
  /-- `erpnext.get_default_company()`. -/
  default_company : String
  /-- `get_company_address(company).company_address` (an address name). -/
  companyAddress : String → Option String
  /-- `frappe.db.get_value("Item", item_code, "item_tax_category")`. -/
  itemTaxCategory : String → Option String
  /-- `frappe.db.get_value("Customer", customer, "exempt_from_sales_tax")`. -/
  customerExempt : String → Option Int
  /-- `frappe.db.get_value("Company", company, "cost_center")`. -/
  costCenter : Option String → Option String
  /-- `client.tax_for_order(tax_dict)`: `Except.error` is a
  `TaxJarResponseError` carrying its `detail` string. -/
  taxForOrder : TaxDict → Except String TaxData
  /-- Truthiness of `frappe.local.conf.get("taxjar_calculate_tax", 1)`. -/
  conf_calculate_tax : Bool
  /-- `TAX_ACCOUNT_HEAD` (module global, from TaxJar Settings). -/
  tax_account_head : String
  /-- `SHIP_ACCOUNT_HEAD` (module global, from TaxJar Settings). -/
  shipping_account_head : String

/-- Python truthiness of an optional string (`None` and `""` are falsy). -/
def pyTruthy : Option String → Bool
  | none => false
  | some s => s != ""

/-- `api.py:238-242` applied to an address document: fetch the country code
from the `Country` table, then run `validate_state` on the address's state.
A `None` state crashes (`.upper()` on `None`); the country-code lookup result
is passed through (its absence only crashes inside the short-code branch). -/
def validate_state_addr (env : Env) (addr : Address) : PyResult String :=
  match addr.state with
  | none => PyResult.crash
  | some raw =>
    validate_state env.db
      (match addr.country with
       | none => none
       | some c => env.countryCode c) raw

/-- `api.py:67-81`, `get_shipping_address`. -/
def get_shipping_address (env : Env) (doc : Doc) : PyResult Address :=
  let company := match doc.company with
    | none => env.default_company
    | some c => if c == "" then env.default_company else c
  match env.companyAddress company with
  | none => PyResult.thrown "Please set up your company's shipping address"
  | some ca =>
    if ca == "" then PyResult.thrown "Please set up your company's shipping address"
    else
      match doc.shipping_address_name with
      | some n => if n == "" then PyResult.ok (env.getAddress ca) else PyResult.ok (env.getAddress n)
      | none => PyResult.ok (env.getAddress ca)

/-- `api.py:280-310`, `get_product_code`: the literal product-code table. -/
def product_codes : List (String × String) :=
  [("Magazines & Subscriptions", "81300"), ("Clothing - Swimwear", "20041"),
   ("General Services", "19000"), ("Other Exempt", "99999"),
   ("Software as a Service", "30070"), ("Soft Drinks", "40050"),
   ("Digital Goods", "31000"), ("Religious Books", "81120"),
   ("Prepared Foods", "41000"), ("Installation Services", "10040"),
   ("Dry Cleaning Services", "19006"), ("Books", "81100"),
   ("Prescription", "51020"), ("Textbooks", "81110"), ("Candy", "40010"),
   ("Magazine", "81310"), ("Supplements", "40020"),
   ("Printing Services", "19009"), ("Admission Services", "19003"),
   ("Hairdressing Services", "19008"), ("Clothing", "20010"),
   ("Food & Groceries", "40030"), ("Parking Services", "19002"),
   ("Advertising Services", "19001"), ("Training Services", "19004"),
   ("Non-Prescription", "51010"), ("Professional Services", "19005"),
   ("Bottled Water", "40060"), ("Repair Services", "19007")]

/-- `product_codes.get(category)`. -/
def get_product_code (category : String) : Option String :=
  (product_codes.find? (fun p => p.1 == category)).map (fun p => p.2)

/-- `api.py:264-277`, `get_item_tax_code`: `None` for an empty item list,
otherwise one line item per item having a truthy tax category. -/
def get_item_tax_code (env : Env) (items : List Item) : Option (List LineItem) :=
  if items.isEmpty then none
  else some (items.filterMap (fun item =>
    match env.itemTaxCategory item.item_code with
    | none => none
    | some cat =>
      if cat == "" then none
      else some { quantity := item.qty, unit_price := item.rate,
                  product_tax_code := get_product_code cat }))

/-- `api.py:107-109`: sum the `tax_amount` of rows whose head is the shipping
account head. -/
def shippingTotal (env : Env) (taxes : List TaxRow) : Int :=
  taxes.foldl
    (fun acc t => if t.account_head == env.shipping_account_head then acc + t.tax_amount else acc) 0

/-- `api.py:84-142`, `get_tax_data`.  `ok none` is the Python `return None`
(no tax data applicable), `ok (some td)` the assembled `tax_dict`.  Faithful
points worth noting against the source:
* lines 113-114 validate the shipping state (so a bad shipping state throws)
  but line 116 then re-reads the *raw* state, discarding the normalized code;
* lines 120-126: a customer state whose `.upper()` is `AE`/`AA`/`AP` is
  rejected before `validate_state` is reached for that address;
* the `is not None` guards let empty-string states through to
  `validate_state`. -/
def get_tax_data (env : Env) (doc : Doc) : PyResult (Option TaxDict) :=
  match doc.customer_address with
  | none => PyResult.ok none
  | some can =>
    if can == "" then PyResult.ok none
    else
      (get_shipping_address env doc).bind fun shipping_address =>
      if pyTruthy shipping_address.country = false then PyResult.thrown "Country is required"
      else
        match (match shipping_address.country with
               | none => none
               | some c => env.countryCode c) with
        | none => PyResult.crash
        | some fcc0 =>
          if pyUpper fcc0 != "US" then PyResult.ok none
          else
            let customer_address := env.getAddress can
            if pyTruthy customer_address.country = false then PyResult.thrown "Country is required"
            else
              match (match customer_address.country with
                     | none => none
                     | some c => env.countryCode c) with
              | none => PyResult.crash
              | some tcc0 =>
                (match shipping_address.state with
                 | none => PyResult.ok ()
                 | some _ =>
                   (validate_state_addr env shipping_address).bind fun _ => PyResult.ok ()).bind
                fun _ =>
                let shipping_state := shipping_address.state
                (match customer_address.state with
                 | none => PyResult.ok none
                 | some cs =>
                   if pyUpper cs == "AE" || pyUpper cs == "AA" || pyUpper cs == "AP" then
                     PyResult.thrown militaryMessage
                   else
                     (validate_state_addr env customer_address).bind fun v =>
                       PyResult.ok (some v)).bind
                fun customer_state =>
                PyResult.ok (some
                  { to_country := pyUpper tcc0
                    to_zip := customer_address.pincode
                    to_city := customer_address.city
                    to_state := customer_state
                    from_country := pyUpper fcc0
                    from_zip := shipping_address.pincode
                    from_city := shipping_address.city
                    from_state := shipping_state
                    shipping := shippingTotal env doc.taxes
                    amount := doc.net_total
                    line_items := get_item_tax_code env doc.items })

/-- `api.py:145-159`, `sanitize_error_response` on the error `detail`. -/
def sanitize_error_response (detail : String) : String :=
  ((((detail.replace "_" " ").replace "to zip" "Zipcode").replace "to city" "City").replace
      "to state" "State").replace "to country" "Country"

/-- `api.py:227-235`, `validate_tax_request`. -/
def validate_tax_request (env : Env) (td : TaxDict) : PyResult TaxData :=
  match env.taxForOrder td with
  | Except.error e => PyResult.thrown (sanitize_error_response e)
  | Except.ok d => PyResult.ok d

/-- `api.py:175-178` and `200-205`: set `tax_amount` on the *first* row whose
head matches, leave the rest alone (the Python loop breaks after one hit). -/
def setFirstTaxAmount (head : String) (amt : Int) : List TaxRow → List TaxRow
  | [] => []
  | r :: rs =>
    if r.account_head == head then { r with tax_amount := amt } :: rs
    else r :: setFirstTaxAmount head amt rs

/-- `api.py:162-215`, `set_sales_tax`, returning the document with its
(possibly) rewritten `taxes` list.  `doc.run_method("calculate_taxes_and_totals")`
is host-framework code that recomputes totals; it does not touch the modelled
row fields and is omitted. -/
def set_sales_tax (env : Env) (doc : Doc) : PyResult Doc :=
  if doc.items.isEmpty then PyResult.ok doc
  else if env.conf_calculate_tax = false then PyResult.ok doc
  else
    let customer_exempt : Int := match env.customerExempt doc.customer with
      | none => 0
      | some v => v
    if doc.exempt_from_sales_tax == some 1 || customer_exempt != 0 then
      PyResult.ok { doc with taxes := setFirstTaxAmount env.tax_account_head 0 doc.taxes }
    else
      (get_tax_data env doc).bind fun tax_dict =>
        match tax_dict with
        | none =>
          PyResult.ok { doc with
            taxes := doc.taxes.filter (fun t => !(t.account_head == env.tax_account_head)) }
        | some td =>
          (validate_tax_request env td).bind fun tax_data =>
            let cost_center := env.costCenter doc.company
            if tax_data.amount_to_collect == 0 then
              PyResult.ok { doc with
                taxes := doc.taxes.filter (fun t => !(t.account_head == env.tax_account_head)) }
            else if tax_data.amount_to_collect > 0 then
              if doc.taxes.any (fun t => t.account_head == env.tax_account_head) then
                PyResult.ok { doc with
                  taxes := setFirstTaxAmount env.tax_account_head tax_data.amount_to_collect doc.taxes }
              else
                PyResult.ok { doc with
                  taxes := doc.taxes ++
                    [{ charge_type := "Actual", description := "Sales Tax",
                       account_head := env.tax_account_head, cost_center := cost_center,
                       tax_amount := tax_data.amount_to_collect }] }
            else PyResult.ok doc

/-- Company shipping address: note the raw, un-normalized state `" fl "`. -/
def companyAddr : Address :=
  { country := some "United States", state := some " fl ",
    pincode := some "32004", city := some "Jacksonville" }

/-- Company address without a state. -/
def companyAddrNoState : Address :=
  { country := some "United States", state := none,
    pincode := some "32004", city := some "Jacksonville" }

/-- Customer address with state `" fl "`. -/
def custAddrFl : Address :=
  { country := some "United States", state := some " fl ",
    pincode := some "32003", city := some "Orange Park" }

/-- Customer address with the empty-string state. -/
def custAddrEmpty : Address :=
  { country := some "United States", state := some "",
    pincode := some "32003", city := some "Orange Park" }

/-- Customer address with a `None` state. -/
def custAddrNone : Address :=
  { country := some "United States", state := none,
    pincode := some "32003", city := some "Orange Park" }

/-- Customer address with a military state code. -/
def custAddrAE : Address :=
  { country := some "United States", state := some "AE",
    pincode := some "09001", city := some "APO" }

/-- A concrete environment over `sampleDb` used for the concrete runs. -/
def sampleEnv : Env :=
  { db := sampleDb
    countryCode := fun c =>
      if c == "United States" then some "us"
      else if c == "Canada" then some "ca" else none
    getAddress := fun n =>
      if n == "COMPANY-ADDR" then companyAddr
      else if n == "COMPANY-NOSTATE" then companyAddrNoState
      else if n == "CUST-FL" then custAddrFl
      else if n == "CUST-EMPTY" then custAddrEmpty
      else if n == "CUST-NONE" then custAddrNone
      else if n == "CUST-AE" then custAddrAE
      else { country := none, state := none, pincode := none, city := none }
    default_company := "DigiThinkIT"
    companyAddress := fun c =>
      if c == "NoStateCo" then some "COMPANY-NOSTATE" else some "COMPANY-ADDR"
    itemTaxCategory := fun _ => none
    customerExempt := fun _ => none
    costCenter := fun _ => some "Main - DT"
    taxForOrder := fun _ => Except.ok { amount_to_collect := 5 }
    conf_calculate_tax := true
    tax_account_head := "Sales Tax - DT"
    shipping_account_head := "Shipping - DT" }

/-- The shipping-charge row of the sample document. -/
def shipRow : TaxRow :=
  { charge_type := "Actual", description := "Shipping", account_head := "Shipping - DT",
    cost_center := some "Main - DT", tax_amount := 10 }

/-- The pre-existing sales-tax row of the sample document. -/
def taxRow : TaxRow :=
  { charge_type := "Actual", description := "Sales Tax", account_head := "Sales Tax - DT",
    cost_center := some "Main - DT", tax_amount := 7 }

/-- A sales document shipping from the company address to `custAddrFl`. -/
def sampleDoc : Doc :=
  { company := some "DigiThinkIT", customer := "ACME",
    customer_address := some "CUST-FL", shipping_address_name := none,
    items := [{ item_code := "WIDGET", qty := 1, rate := 100 }],
    taxes := [shipRow, taxRow], net_total := 100, exempt_from_sales_tax := none }

/-- Like `sampleDoc` but with the empty-string customer state. -/
def emptyStateDoc : Doc := { sampleDoc with customer_address := some "CUST-EMPTY" }

/-- Shipping address without a state, customer address without a state. -/
def noStateDoc : Doc :=
  { sampleDoc with company := some "NoStateCo", customer_address := some "CUST-NONE",
                   items := [], taxes := [] }

/-- Shipping address without a state, customer at a military address. -/
def militaryDoc : Doc :=
  { sampleDoc with company := some "NoStateCo", customer_address := some "CUST-AE" }

/-- The `tax_dict` that `get_tax_data` produces for `sampleDoc`: `to_state`
is normalized to `"FL"`, while `from_state` carries the raw `" fl "`. -/
def sampleTaxDict : TaxDict :=
  { to_country := "US", to_zip := some "32003", to_city := some "Orange Park",
    to_state := some "FL", from_country := "US", from_zip := some "32004",
    from_city := some "Jacksonville", from_state := some " fl ",
    shipping := 10, amount := 100, line_items := some [] }

/-- The document produced by `set_sales_tax` on the sample run: the sales-tax
row is updated to the remote amount, the shipping row untouched. -/
def sampleOutDoc : Doc :=
  { sampleDoc with taxes := [shipRow, { taxRow with tax_amount := 5 }] }

/-- Whether `l` starts with the characters of `needle`. -/
def listStarts : List Char → List Char → Bool
  | [], _ => true
  | _ :: _, [] => false
  | a :: as, b :: bs => a == b && listStarts as bs

/-- Whether some suffix of `hay` starts with `needle`. -/
def strHasSubAux (needle : List Char) : List Char → Bool
  | [] => listStarts needle []
  | c :: cs => listStarts needle (c :: cs) || strHasSubAux needle cs

/-- Python `needle in hay` on strings: substring containment. -/
def strHasSub (hay needle : String) : Bool := strHasSubAux needle.data hay.data

example : validate_state sampleDb (some "us") " fl " = .ok "FL" := by decide
example : validate_state sampleDb (some "US") "US-TX" = .ok "TX" := by decide
example : validate_state sampleDb (some "US") "Ontario" = .ok "ON" := by decide
example : validate_state sampleDb (some "US") "ON" =
    .thrown (invalidStateMessage "ON") := by decide
example : validate_state sampleDb (some "JP") "Mie" =
    .thrown (invalidStateMessage "Mie") := by decide
example : validate_state sampleDb (some "CA") "Québec" = .ok "QC" := by decide
example : validate_state sampleDb (some "CA") "Quebec" =
    .thrown (invalidStateMessage "Quebec") := by decide

/-- A predicate that holds of exactly one list member picks that member. -/
theorem find?_eq_some_of_unique {α : Type} (p : α → Bool) (l : List α) (e : α)
    (he : e ∈ l) (hpe : p e = true)
    (huniq : ∀ x ∈ l, p x = true → x = e) : l.find? p = some e := by
  induction l with
  | nil => cases he
  | cons a as ih =>
    by_cases ha : p a = true
    · have hae : a = e := huniq a (List.mem_cons_self a as) ha
      rw [List.find?_cons_of_pos as ha, hae]
    · rw [List.find?_cons_of_neg as ha]
      rcases List.mem_cons.mp he with rfl | hmem
      · exact absurd hpe ha
      · exact ih hmem (fun x hx hpx => huniq x (List.mem_cons_of_mem a hx) hpx)

/-- When no code matches, `subdivisions_lookup` falls back to the name scan
and returns a member whose name matches the value case-insensitively. -/
theorem subdivisions_lookup_name (db : List Subdivision) (value : String)
    (e : Subdivision) (he : e ∈ db)
    (hname : pyLower e.name = pyLower value)
    (hnocode : ∀ x ∈ db, pyLower x.code ≠ pyLower value) :
    ∃ x, x ∈ db ∧ subdivisions_lookup db value = some x ∧
      pyLower x.name = pyLower value := by
  have hc : db.find? (fun x => pyLower x.code == pyLower value) = none := by
    rw [List.find?_eq_none]
    intro x hx
    simpa using hnocode x hx
  cases hg : db.find? (fun x => pyLower x.name == pyLower value) with
  | none =>
    exfalso
    have := List.find?_eq_none.mp hg e he
    simp [hname] at this
  | some x =>
    refine ⟨x, List.mem_of_find?_eq_some hg, ?_, by simpa using List.find?_some hg⟩
    unfold subdivisions_lookup
    rw [hc, hg]

/-- Resolution through the name scan of the > 3-character branch. -/
theorem validate_state_ok_of_name (db : List Subdivision) (cc s sc : String)
    (hlen : 3 < (processState s).length)
    (e : Subdivision) (he : e ∈ db)
    (hname : pyLower e.name = pyLower (processState s))
    (hnocode : ∀ x ∈ db, pyLower x.code ≠ pyLower (processState s))
    (hsc : ∀ x ∈ db, pyLower x.name = pyLower (processState s) →
      splitSecond x.code = some sc) :
    validate_state db (some cc) s = .ok sc := by
  obtain ⟨x, hx, hlk, hxn⟩ :=
    subdivisions_lookup_name db (processState s) e he hname hnocode
  unfold validate_state
  rw [if_neg (by omega), hlk]
  show (match splitSecond x.code with
        | some sc => PyResult.ok sc
        | none => PyResult.crash) = PyResult.ok sc
  rw [hsc x hx hxn]

/-- Resolution through the code index of the > 3-character branch. -/
theorem validate_state_ok_of_code (db : List Subdivision) (cc s sc : String)
    (hlen : 3 < (processState s).length)
    (e : Subdivision) (he : e ∈ db)
    (hcode : pyLower e.code = pyLower (processState s))
    (huniq : ∀ x ∈ db, pyLower x.code = pyLower (processState s) → x = e)
    (hsc : splitSecond e.code = some sc) :
    validate_state db (some cc) s = .ok sc := by
  have hf : db.find? (fun x => pyLower x.code == pyLower (processState s)) = some e :=
    find?_eq_some_of_unique _ db e he (by simp [hcode])
      (fun x hx hpx => huniq x hx (by simpa using hpx))
  unfold validate_state
  rw [if_neg (by omega)]
  unfold subdivisions_lookup
  rw [hf]
  show (match splitSecond e.code with
        | some sc => PyResult.ok sc
        | none => PyResult.crash) = PyResult.ok sc
  rw [hsc]

/-- The short-code branch accepts a code of the given country. -/
theorem validate_state_ok_short (db : List Subdivision) (cc s : String)
    (hlen : (processState s).length ≤ 3)
    (e : Subdivision) (he : e ∈ db)
    (hctry : e.country_code = pyUpper cc)
    (hcode : e.code = pyUpper (cc ++ "-" ++ processState s)) :
    validate_state db (some cc) s = .ok (processState s) := by
  have hmem : e ∈ subdivisions_get db (pyUpper cc) := by
    rw [subdivisions_get, List.mem_filter]
    exact ⟨he, by simp [hctry]⟩
  have hmap : pyUpper (cc ++ "-" ++ processState s) ∈
      (subdivisions_get db (pyUpper cc)).map (fun p => p.code) :=
    List.mem_map.mpr ⟨e, hmem, hcode⟩
  have hcont : ((subdivisions_get db (pyUpper cc)).map (fun p => p.code)).contains
      (pyUpper (cc ++ "-" ++ processState s)) = true := by
    rw [List.contains]
    exact List.elem_iff.mpr hmap
  unfold validate_state
  rw [if_pos hlen]
  show (if ((subdivisions_get db (pyUpper cc)).map (fun p => p.code)).contains
      (pyUpper (cc ++ "-" ++ processState s)) = true then
        PyResult.ok (processState s)
      else PyResult.thrown (invalidStateMessage s)) = PyResult.ok (processState s)
  rw [hcont, if_pos rfl]

/-- An input resolving neither as a country short code nor through the global
lookup is thrown back with the `InvalidStateError` message. -/
theorem validate_state_thrown_of_unresolved (db : List Subdivision) (cc s : String)
    (hshort : ((subdivisions_get db (pyUpper cc)).map (fun p => p.code)).contains
      (pyUpper (cc ++ "-" ++ processState s)) = false)
    (hnocode : ∀ x ∈ db, pyLower x.code ≠ pyLower (processState s))
    (hnoname : ∀ x ∈ db, pyLower x.name ≠ pyLower (processState s)) :
    validate_state db (some cc) s = .thrown (invalidStateMessage s) := by
  have hc : db.find? (fun x => pyLower x.code == pyLower (processState s)) = none := by
    rw [List.find?_eq_none]; intro x hx; simpa using hnocode x hx
  have hn : db.find? (fun x => pyLower x.name == pyLower (processState s)) = none := by
    rw [List.find?_eq_none]; intro x hx; simpa using hnoname x hx
  unfold validate_state
  by_cases hlen : (processState s).length ≤ 3
  · rw [if_pos hlen]
    show (if ((subdivisions_get db (pyUpper cc)).map (fun p => p.code)).contains
        (pyUpper (cc ++ "-" ++ processState s)) = true then
          PyResult.ok (processState s)
        else PyResult.thrown (invalidStateMessage s)) =
      PyResult.thrown (invalidStateMessage s)
    rw [hshort, if_neg (by simp)]
  · rw [if_neg hlen]
    unfold subdivisions_lookup
    rw [hc, hn]

/-- A member of the dataset is returned by a successful lookup. -/
theorem mem_of_subdivisions_lookup (db : List Subdivision) (value : String)
    (x : Subdivision) (h : subdivisions_lookup db value = some x) : x ∈ db := by
  unfold subdivisions_lookup at h
  cases hf : db.find? (fun e => pyLower e.code == pyLower value) with
  | some y =>
    rw [hf] at h
    have hyx : y = x := Option.some.inj h
    exact hyx ▸ List.mem_of_find?_eq_some hf
  | none =>
    rw [hf] at h
    exact List.mem_of_find?_eq_some h

/-- `listStarts` holds along an append. -/
theorem listStarts_append (l t : List Char) : listStarts l (l ++ t) = true := by
  induction l with
  | nil => rfl
  | cons a as ih => simp [listStarts, ih]

/-- Substring search succeeds when the whole haystack already starts with the
needle. -/
theorem strHasSubAux_of_listStarts (n l : List Char)
    (h : listStarts n l = true) : strHasSubAux n l = true := by
  cases l with
  | nil => exact h
  | cons c cs =>
    unfold strHasSubAux
    rw [h]
    rfl

/-- A string is a substring of itself followed by anything. -/
theorem strHasSub_append (s t : String) : strHasSub (s ++ t) s = true := by
  have hdata : (s ++ t).data = s.data ++ t.data := by
    cases s; cases t; rfl
  unfold strHasSub
  rw [hdata]
  exact strHasSubAux_of_listStarts _ _ (listStarts_append s.data t.data)

example : get_tax_data sampleEnv sampleDoc = .ok (some sampleTaxDict) := by decide
example : get_tax_data sampleEnv emptyStateDoc =
    .thrown (invalidStateMessage "") := by decide
example : get_tax_data sampleEnv militaryDoc = .thrown militaryMessage := by decide
example : set_sales_tax sampleEnv sampleDoc =
    .ok { sampleDoc with taxes := [shipRow, { taxRow with tax_amount := 5 }] } := by decide

/-- C1 (amended): a (country, subdivision-name) pair of the reference dataset
is resolved to its short code, in any letter case and with surrounding
whitespace, *provided* the upper-cased trimmed input is longer than three
characters (shorter inputs take the short-code branch instead) and the input
collides with no full code and agrees with every same-named entry — the
lookup is global and name matching returns the first hit in dataset order. -/
theorem validate_state_resolves_dataset_names
    (db : List Subdivision) (cc s sc : String) (e : Subdivision)
    (he : e ∈ db)
    (hname : pyLower e.name = pyLower (processState s))
    (hlen : 3 < (processState s).length)
    (hnocode : ∀ x ∈ db, pyLower x.code ≠ pyLower (processState s))
    (hagree : ∀ x ∈ db, pyLower x.name = pyLower (processState s) →
      splitSecond x.code = some sc) :
    validate_state db (some cc) s = .ok sc :=
  validate_state_ok_of_name db cc s sc hlen e he hname hnocode hagree

/-- Witness for C1's amended theorem: `" florida "` resolves to `"FL"`. -/
theorem validate_state_resolves_dataset_names_witness :
    validate_state sampleDb (some "US") " florida " = .ok "FL" :=
  validate_state_resolves_dataset_names sampleDb "US" " florida " "FL"
    ⟨"US", "US-FL", "Florida"⟩ (by decide) (by decide) (by decide) (by decide)
    (by decide)

/-- Counterexample to C1 as stated: `("JP", "Mie")` is a (country, name) pair
of the dataset, yet the normalizer throws instead of returning `"24"` — the
three-character name is routed to the short-code branch. -/
theorem validate_state_short_name_rejected :
    (⟨"JP", "JP-24", "Mie"⟩ : Subdivision) ∈ sampleDb ∧
    validate_state sampleDb (some "JP") "Mie" =
      .thrown (invalidStateMessage "Mie") := by decide

/-- C2 (confirmed): for a dataset pair with full code `cc ++ "-" ++ sc`, the
full ISO form is accepted and the bare short code returned.  The hypotheses
are the dataset invariants the claim presupposes: the entry is in the
dataset, its short code is the second dash-field of its full code, the input
processes to the entry's code case-insensitively, and full codes are unique
case-insensitively. -/
theorem validate_state_full_iso_form
    (db : List Subdivision) (cc sc : String) (e : Subdivision)
    (he : e ∈ db)
    (hfull : e.code = cc ++ "-" ++ sc)
    (hsc : splitSecond e.code = some sc)
    (hmatch : pyLower e.code = pyLower (processState (cc ++ "-" ++ sc)))
    (hlen : 3 < (processState (cc ++ "-" ++ sc)).length)
    (huniq : ∀ x ∈ db, pyLower x.code = pyLower (processState (cc ++ "-" ++ sc)) → x = e) :
    validate_state db (some cc) (cc ++ "-" ++ sc) = .ok sc :=
  validate_state_ok_of_code db cc (cc ++ "-" ++ sc) sc hlen e he hmatch huniq hsc

/-- Witness for C2: `"US-FL"` resolves to `"FL"`. -/
theorem validate_state_full_iso_form_witness :
    validate_state sampleDb (some "US") ("US" ++ "-" ++ "FL") = .ok "FL" :=
  validate_state_full_iso_form sampleDb "US" "FL" ⟨"US", "US-FL", "Florida"⟩
    (by decide) (by decide) (by decide) (by decide) (by decide) (by decide)

/-- C3 (amended): a short code of the given country (an input whose processed
form is at most three characters and appears as `<CC>-<code>` among the
country's full codes) is returned unchanged — and every input processing to
the same state, in particular that output itself, maps to the same short
code, so re-running *such* an output is stable.  (Re-running an output of the
global-lookup branch can fail; see the counterexample.) -/
theorem validate_state_short_code_fixed_point
    (db : List Subdivision) (cc s : String) (e : Subdivision)
    (hlen : (processState s).length ≤ 3)
    (he : e ∈ db)
    (hctry : e.country_code = pyUpper cc)
    (hcode : e.code = pyUpper (cc ++ "-" ++ processState s)) :
    validate_state db (some cc) s = .ok (processState s) ∧
    ∀ s2, processState s2 = processState s →
      validate_state db (some cc) s2 = .ok (processState s) := by
  refine ⟨validate_state_ok_short db cc s hlen e he hctry hcode, fun s2 h2 => ?_⟩
  have hlen2 : (processState s2).length ≤ 3 := by rw [h2]; exact hlen
  have hcode2 : e.code = pyUpper (cc ++ "-" ++ processState s2) := by
    rw [h2]; exact hcode
  have h := validate_state_ok_short db cc s2 hlen2 e he hctry hcode2
  rw [h2] at h
  exact h

/-- Witness for C3's amended theorem: `" fl "` → `"FL"`, and re-running the
output `"FL"` again yields `"FL"`. -/
theorem validate_state_short_code_fixed_point_witness :
    validate_state sampleDb (some "us") " fl " = .ok "FL" ∧
    validate_state sampleDb (some "us") "FL" = .ok "FL" := by
  have h := validate_state_short_code_fixed_point sampleDb "us" " fl "
    ⟨"US", "US-FL", "Florida"⟩ (by decide) (by decide) (by decide) (by decide)
  exact ⟨h.1, h.2 "FL" (by decide)⟩

/-- Counterexample to C3 as stated: with country `"US"`, the successful output
`"ON"` (obtained from `"Ontario"` through the country-agnostic lookup, which
here hits Canada's `CA-ON`) fails when re-run with the same country, so
re-running a successful output is *not* always stable. -/
theorem validate_state_rerun_of_output_fails :
    validate_state sampleDb (some "US") "Ontario" = .ok "ON" ∧
    validate_state sampleDb (some "US") "ON" =
      .thrown (invalidStateMessage "ON") := by decide

/-- C4 (amended): an input resolving neither as a short code of the given
country nor anywhere in the dataset (by code or name, case-insensitively)
is rejected with the single `InvalidStateError` message, which contains the
*original* input string verbatim and the typo/ISO instruction — but does not
name the country (see the counterexample). -/
theorem validate_state_unresolvable_message
    (db : List Subdivision) (cc s : String)
    (hshort : ((subdivisions_get db (pyUpper cc)).map (fun p => p.code)).contains
      (pyUpper (cc ++ "-" ++ processState s)) = false)
    (hnocode : ∀ x ∈ db, pyLower x.code ≠ pyLower (processState s))
    (hnoname : ∀ x ∈ db, pyLower x.name ≠ pyLower (processState s)) :
    validate_state db (some cc) s = .thrown (invalidStateMessage s) ∧
    strHasSub (invalidStateMessage s) s = true :=
  ⟨validate_state_thrown_of_unresolved db cc s hshort hnocode hnoname,
   strHasSub_append s " is not a valid state! Check for typos or enter the ISO code for your state."⟩

/-- Witness for C4's amended theorem at `("US", "Zzyzx")`. -/
theorem validate_state_unresolvable_message_witness :
    validate_state sampleDb (some "US") "Zzyzx" =
      .thrown (invalidStateMessage "Zzyzx") ∧
    strHasSub (invalidStateMessage "Zzyzx") "Zzyzx" = true :=
  validate_state_unresolvable_message sampleDb "US" "Zzyzx" (by decide)
    (by decide) (by decide)

/-- Counterexample to C4 as stated: the error message for `("US", "Zzyzx")`
contains the input but does not name the country — neither `"US"` nor
`"United States"` occurs in it. -/
theorem validate_state_error_omits_country :
    validate_state sampleDb (some "US") "Zzyzx" =
      .thrown (invalidStateMessage "Zzyzx") ∧
    strHasSub (invalidStateMessage "Zzyzx") "Zzyzx" = true ∧
    strHasSub (invalidStateMessage "Zzyzx") "US" = false ∧
    strHasSub (invalidStateMessage "Zzyzx") "United States" = false := by decide

/-- C5 (amended): an accented dataset name resolves (case-insensitively, in
its exact accented form) to its short code, while its diacritic-stripped
transliteration — when it matches no dataset code or name — is rejected: the
normalizer performs no diacritic stripping of its own. -/
theorem validate_state_accented_exact_only
    (db : List Subdivision) (cc s t sc : String) (e : Subdivision)
    (he : e ∈ db)
    (hname : pyLower e.name = pyLower (processState s))
    (hlen : 3 < (processState s).length)
    (hnocode : ∀ x ∈ db, pyLower x.code ≠ pyLower (processState s))
    (hagree : ∀ x ∈ db, pyLower x.name = pyLower (processState s) →
      splitSecond x.code = some sc)
    (htshort : ((subdivisions_get db (pyUpper cc)).map (fun p => p.code)).contains
      (pyUpper (cc ++ "-" ++ processState t)) = false)
    (htnocode : ∀ x ∈ db, pyLower x.code ≠ pyLower (processState t))
    (htnoname : ∀ x ∈ db, pyLower x.name ≠ pyLower (processState t)) :
    validate_state db (some cc) s = .ok sc ∧
    validate_state db (some cc) t = .thrown (invalidStateMessage t) :=
  ⟨validate_state_ok_of_name db cc s sc hlen e he hname hnocode hagree,
   validate_state_thrown_of_unresolved db cc t htshort htnocode htnoname⟩

/-- Witness for C5's amended theorem: `"Québec"` resolves to `"QC"`, its
transliteration `"Quebec"` is rejected. -/
theorem validate_state_accented_exact_only_witness :
    validate_state sampleDb (some "CA") "Québec" = .ok "QC" ∧
    validate_state sampleDb (some "CA") "Quebec" =
      .thrown (invalidStateMessage "Quebec") :=
  validate_state_accented_exact_only sampleDb "CA" "Québec" "Quebec" "QC"
    ⟨"CA", "CA-QC", "Québec"⟩ (by decide) (by decide) (by decide) (by decide)
    (by decide) (by decide) (by decide) (by decide)

/-- Counterexample to C5 as stated: `"Québec"` is an accented dataset name
with no colliding transliteration, yet `"Quebec"` does not resolve to the
same code — it is thrown back as invalid. -/
theorem validate_state_no_transliteration :
    (⟨"CA", "CA-QC", "Québec"⟩ : Subdivision) ∈ sampleDb ∧
    validate_state sampleDb (some "CA") "Québec" = .ok "QC" ∧
    validate_state sampleDb (some "CA") "Quebec" =
      .thrown (invalidStateMessage "Quebec") := by decide

/-- C9 (amended): for a country with zero subdivisions in the dataset the
normalizer never crashes on a non-empty state (given the dataset invariant
that every full code contains a dash), and every input of at most three
processed characters fails with the `InvalidStateError` message; but an input
longer than three characters can still *succeed* through the country-agnostic
lookup (see the counterexample), so "fails for any non-empty input" is too
strong. -/
theorem validate_state_zero_subdivisions_safe
    (db : List Subdivision) (cc s : String)
    (hempty : subdivisions_get db (pyUpper cc) = [])
    (hs : s ≠ "")
    (hwf : ∀ x ∈ db, splitSecond x.code ≠ none) :
    validate_state db (some cc) s ≠ .crash ∧
    ((processState s).length ≤ 3 →
      validate_state db (some cc) s = .thrown (invalidStateMessage s)) := by
  have hthrown : (processState s).length ≤ 3 →
      validate_state db (some cc) s = .thrown (invalidStateMessage s) := by
    intro hlen
    unfold validate_state
    rw [if_pos hlen]
    show (if ((subdivisions_get db (pyUpper cc)).map (fun p => p.code)).contains
        (pyUpper (cc ++ "-" ++ processState s)) = true then
          PyResult.ok (processState s)
        else PyResult.thrown (invalidStateMessage s)) =
      PyResult.thrown (invalidStateMessage s)
    rw [hempty]
    rw [if_neg (by simp [List.contains])]
  refine ⟨?_, hthrown⟩
  by_cases hlen : (processState s).length ≤ 3
  · rw [hthrown hlen]
    simp
  · unfold validate_state
    rw [if_neg hlen]
    cases hlk : subdivisions_lookup db (processState s) with
    | none => simp
    | some x =>
      have hx : x ∈ db := mem_of_subdivisions_lookup db (processState s) x hlk
      cases hsc : splitSecond x.code with
      | none => exact absurd hsc (hwf x hx)
      | some sc =>
        show (match splitSecond x.code with
              | some sc => PyResult.ok sc
              | none => PyResult.crash) ≠ PyResult.crash
        rw [hsc]
        simp

/-- Witness for C9's amended theorem: country `"XZ"` has no subdivisions in
the sample dataset, and the short input `"Zz"` fails without crashing. -/
theorem validate_state_zero_subdivisions_safe_witness :
    validate_state sampleDb (some "XZ") "Zz" ≠ .crash ∧
    validate_state sampleDb (some "XZ") "Zz" =
      .thrown (invalidStateMessage "Zz") := by
  have h := validate_state_zero_subdivisions_safe sampleDb "XZ" "Zz" (by decide)
    (by decide) (by decide)
  exact ⟨h.1, h.2 (by decide)⟩

/-- Counterexample to C9 as stated: `"XZ"` has zero subdivisions in the
dataset, yet the non-empty input `"Ontario"` does *not* fail — the global
lookup resolves it to Canada's `"ON"`. -/
theorem validate_state_zero_subdivisions_lookup_hit :
    subdivisions_get sampleDb (pyUpper "XZ") = [] ∧
    validate_state sampleDb (some "XZ") "Ontario" = .ok "ON" := by decide

/-- C8 (confirmed): a customer state whose `.upper()` is one of the military
codes `AE`/`AA`/`AP` makes `get_tax_data` throw the military-address message
before the normalizer is invoked on that state: note that no hypothesis
constrains `env.db`, `env.countryCode` beyond the two country lookups, or the
behaviour of `validate_state` on the customer address — the rejection happens
first.  The remaining hypotheses are the plumbing needed to reach the
customer-state check: an address-bearing document shipping from a US address
whose own state field is absent. -/
theorem get_tax_data_military_guard
    (env : Env) (doc : Doc) (can : String) (sa : Address)
    (sctry cctry fcc tcc cs : String)
    (h1 : doc.customer_address = some can)
    (h2 : can ≠ "")
    (h3 : get_shipping_address env doc = .ok sa)
    (h4 : sa.country = some sctry)
    (h5 : sctry ≠ "")
    (h6 : env.countryCode sctry = some fcc)
    (h7 : pyUpper fcc = "US")
    (h8 : (env.getAddress can).country = some cctry)
    (h9 : cctry ≠ "")
    (h10 : env.countryCode cctry = some tcc)
    (h11 : sa.state = none)
    (h12 : (env.getAddress can).state = some cs)
    (h13 : (pyUpper cs == "AE" || pyUpper cs == "AA" || pyUpper cs == "AP") = true) :
    get_tax_data env doc = .thrown militaryMessage := by
  simp [get_tax_data, h1, h2, h3, h4, h5, h6, h7, h8, h9, h10, h11, h12, h13,
    PyResult.bind, pyTruthy]

/-- Witness for C8: the document whose customer address has state `"AE"` is
rejected with the military message. -/
theorem get_tax_data_military_guard_witness :
    get_tax_data sampleEnv militaryDoc = .thrown militaryMessage :=
  get_tax_data_military_guard sampleEnv militaryDoc "CUST-AE" companyAddrNoState
    "United States" "United States" "us" "us" "AE" (by decide) (by decide)
    (by decide) (by decide) (by decide) (by decide) (by decide) (by decide)
    (by decide) (by decide) (by decide) (by decide) (by decide)

/-- C7 (amended): an *absent* (`None`) state is treated as "not applicable":
the `is not None` guards in `get_tax_data` skip the normalizer and the
request is built with `to_state`/`from_state` equal to `None`, with no error.
The guard does **not** cover the empty string: a `""` state passes `is not
None` and reaches the normalizer, which throws (see the counterexample). -/
theorem get_tax_data_missing_state_not_applicable
    (env : Env) (doc : Doc) (can : String) (sa : Address)
    (sctry cctry fcc tcc : String)
    (h1 : doc.customer_address = some can)
    (h2 : can ≠ "")
    (h3 : get_shipping_address env doc = .ok sa)
    (h4 : sa.country = some sctry)
    (h5 : sctry ≠ "")
    (h6 : env.countryCode sctry = some fcc)
    (h7 : pyUpper fcc = "US")
    (h8 : (env.getAddress can).country = some cctry)
    (h9 : cctry ≠ "")
    (h10 : env.countryCode cctry = some tcc)
    (h11 : sa.state = none)
    (h12 : (env.getAddress can).state = none) :
    get_tax_data env doc = .ok (some
      { to_country := pyUpper tcc
        to_zip := (env.getAddress can).pincode
        to_city := (env.getAddress can).city
        to_state := none
        from_country := pyUpper fcc
        from_zip := sa.pincode
        from_city := sa.city
        from_state := none
        shipping := shippingTotal env doc.taxes
        amount := doc.net_total
        line_items := get_item_tax_code env doc.items }) := by
  simp [get_tax_data, h1, h2, h3, h4, h5, h6, h7, h8, h9, h10, h11, h12,
    PyResult.bind, pyTruthy]

/-- Witness for C7's amended theorem: both states absent, no error, a tax
dict with `None` states. -/
theorem get_tax_data_missing_state_not_applicable_witness :
    get_tax_data sampleEnv noStateDoc = .ok (some
      { to_country := "US", to_zip := some "32003", to_city := some "Orange Park",
        to_state := none, from_country := "US", from_zip := some "32004",
        from_city := some "Jacksonville", from_state := none,
        shipping := 0, amount := 100, line_items := none }) :=
  get_tax_data_missing_state_not_applicable sampleEnv noStateDoc "CUST-NONE"
    companyAddrNoState "United States" "United States" "us" "us" (by decide)
    (by decide) (by decide) (by decide) (by decide) (by decide) (by decide)
    (by decide) (by decide) (by decide) (by decide) (by decide)

/-- Counterexample to C7 as stated: an *empty-string* customer state is not
caught by the `is not None` guard — it reaches `validate_state`, which throws
the `InvalidStateError` message, so "an absent or empty state input never
produces a validation error" is false for `""`. -/
theorem get_tax_data_empty_state_throws :
    custAddrEmpty.state = some "" ∧
    get_tax_data sampleEnv emptyStateDoc = .thrown (invalidStateMessage "") := by
  decide

/-- C6 (code bug): `get_tax_data` carries the *raw* shipping state in
`from_state`, not the normalizer's output.  Here the shipping address state
`" fl "` validates to `"FL"` (the call happens — a bad state would throw, and
line 114 even assigns the result), but line 116 re-reads the raw field, so
the request carries `" fl "`; the customer side does carry the normalized
`"FL"`. -/
theorem get_tax_data_from_state_raw :
    get_tax_data sampleEnv sampleDoc = .ok (some sampleTaxDict) ∧
    validate_state_addr sampleEnv companyAddr = .ok "FL" ∧
    sampleTaxDict.from_state = some " fl " ∧
    sampleTaxDict.to_state = some "FL" := by decide

/-- Filtering away the matching head commutes with `setFirstTaxAmount`. -/
theorem filter_setFirstTaxAmount (head : String) (amt : Int) (l : List TaxRow) :
    (setFirstTaxAmount head amt l).filter (fun t => !(t.account_head == head)) =
      l.filter (fun t => !(t.account_head == head)) := by
  induction l with
  | nil => rfl
  | cons r rs ih =>
    unfold setFirstTaxAmount
    by_cases hr : (r.account_head == head) = true
    · rw [if_pos hr]
      have hhead : ({ r with tax_amount := amt } : TaxRow).account_head =
          r.account_head := rfl
      rw [List.filter_cons, List.filter_cons, hhead, hr]
      simp
    · rw [if_neg hr]
      rw [List.filter_cons, List.filter_cons]
      rw [Bool.not_eq_true] at hr
      rw [hr]
      simp [ih]

/-- C10 (confirmed): whatever `set_sales_tax` does — zeroing the first
sales-tax row for an exempt customer, dropping sales-tax rows when no tax
data applies or nothing is to be collected, updating the first sales-tax row
or appending a new one — every tax row whose `account_head` differs from the
configured sales-tax account head is left byte-for-byte unchanged, in order,
and remains in the collection. -/
theorem set_sales_tax_preserves_other_rows
    (env : Env) (doc doc2 : Doc)
    (h : set_sales_tax env doc = .ok doc2) :
    doc2.taxes.filter (fun t => !(t.account_head == env.tax_account_head)) =
      doc.taxes.filter (fun t => !(t.account_head == env.tax_account_head)) ∧
    ∀ t ∈ doc.taxes, (t.account_head == env.tax_account_head) = false →
      t ∈ doc2.taxes := by
  suffices hfil : doc2.taxes.filter
      (fun t => !(t.account_head == env.tax_account_head)) =
      doc.taxes.filter (fun t => !(t.account_head == env.tax_account_head)) by
    refine ⟨hfil, fun t ht hp => ?_⟩
    have hmem : t ∈ doc.taxes.filter
        (fun t => !(t.account_head == env.tax_account_head)) :=
      List.mem_filter.mpr ⟨ht, by simp [hp]⟩
    rw [← hfil] at hmem
    exact (List.mem_filter.mp hmem).1
  by_cases h1 : doc.items.isEmpty
  · simp only [set_sales_tax, h1, if_true] at h
    injection h with h'
    subst h'
    rfl
  · by_cases h2 : env.conf_calculate_tax = false
    · simp only [set_sales_tax, h1, h2, if_false, if_true] at h
      injection h with h'
      subst h'
      rfl
    · cases h3 : (doc.exempt_from_sales_tax == some 1 ||
          (match env.customerExempt doc.customer with
           | none => (0 : Int)
           | some v => v) != 0) with
      | true =>
        simp only [set_sales_tax, h1, h2, h3, if_false, if_true] at h
        injection h with h'
        subst h'
        exact filter_setFirstTaxAmount env.tax_account_head 0 doc.taxes
      | false =>
        simp only [set_sales_tax, h1, h2, h3, if_false, Bool.false_eq_true] at h
        cases hgt : get_tax_data env doc with
        | thrown m => rw [hgt] at h; simp [PyResult.bind] at h
        | crash => rw [hgt] at h; simp [PyResult.bind] at h
        | ok od =>
          rw [hgt] at h
          cases od with
          | none =>
            simp only [PyResult.bind] at h
            injection h with h'
            subst h'
            simp [List.filter_filter]
          | some td =>
            simp only [PyResult.bind] at h
            cases hv : env.taxForOrder td with
            | error e =>
              simp [validate_tax_request, hv, PyResult.bind] at h
            | ok data =>
              simp only [validate_tax_request, hv, PyResult.bind] at h
              by_cases ha0 : (data.amount_to_collect == 0) = true
              · simp only [ha0, if_true] at h
                injection h with h'
                subst h'
                simp [List.filter_filter]
              · by_cases hpos : data.amount_to_collect > 0
                · by_cases hany : (doc.taxes.any
                      (fun t => t.account_head == env.tax_account_head)) = true
                  · simp only [ha0, hpos, hany, if_true, if_false,
                      Bool.false_eq_true] at h
                    injection h with h'
                    subst h'
                    exact filter_setFirstTaxAmount env.tax_account_head
                      data.amount_to_collect doc.taxes
                  · simp only [ha0, hpos, hany, if_true, if_false,
                      Bool.false_eq_true] at h
                    injection h with h'
                    subst h'
                    simp [List.filter_append, List.filter_cons]
                · simp only [ha0, hpos, if_false, Bool.false_eq_true] at h
                  injection h with h'
                  subst h'
                  rfl

/-- Witness for C10 at a concrete run: the non-sales-tax rows of the output
document equal those of the input document. -/
theorem set_sales_tax_preserves_other_rows_witness :
    sampleOutDoc.taxes.filter
      (fun t => !(t.account_head == sampleEnv.tax_account_head)) =
    sampleDoc.taxes.filter
      (fun t => !(t.account_head == sampleEnv.tax_account_head)) :=
  (set_sales_tax_preserves_other_rows sampleEnv sampleDoc sampleOutDoc
    (by decide)).1

end ErpnextTaxjar
